import Mathlib

/-!
Shallow embedding of `basic_video_processing.py`: a script that reads one video
file and writes three derived videos (grayscale, black-and-white, edge map)
through OpenCV primitives.  Frames are modelled as grids of 8-bit values
(`Nat`, kept in range by the validity predicate), a capture as an optional
`VideoData` (a capture that failed to open reports zeroed properties and yields
no frames, exactly as `cv2.VideoCapture` does), and each conversion function as
a pure function from the ambient file system to a record of its observable
effects: the parameters the output writer was opened with, the frames passed to
`write`, whether the two handles were released, and whether a `cv2.error`
escaped the function (Python exception semantics: statements after the raise
point, including the `release` calls, are skipped).
-/

set_option maxRecDepth 8000

/-- Pixel of a 3-channel frame in OpenCV memory order (blue, green, red). -/
abbrev Px := Nat × Nat × Nat

/-- Raster frame: either single-channel (gray) or 3-channel, as a list of pixel
rows.  This mirrors the numpy arrays produced by `capture.read` and by the
`cv2` conversions; the spec's data model (§3) allows both channel layouts. -/
inductive Mat where
  | gray (rows : List (List Nat))
  | color (rows : List (List Px))
  deriving DecidableEq

/-- Width of a grid of rows: length of its first row (0 when there is none). -/
def gridWidth {α : Type} (rows : List (List α)) : Nat := (rows.headD []).length

/-- Emptiness test matching OpenCV `Mat::empty()` (zero pixels). -/
def gridIsEmpty {α : Type} (rows : List (List α)) : Bool :=
  rows.isEmpty || (rows.headD []).isEmpty

/-- Channel values of an 8-bit pixel are at most 255. -/
def pxValid (p : Px) : Bool := p.1 ≤ 255 && p.2.1 ≤ 255 && p.2.2 ≤ 255

/-- A decoded color frame as `capture.read` returns for a valid color video:
3-channel, non-empty, rectangular, all channel values 8-bit. -/
def Mat.isValidColor : Mat → Bool
  | .gray _ => false
  | .color rows =>
      !rows.isEmpty &&
        rows.all fun row =>
          !row.isEmpty && row.length = gridWidth rows && row.all pxValid

/-- Every read outcome in the list delivers a valid color frame. -/
def allValidReads (reads : List (Option Mat)) : Bool :=
  reads.all fun o => (o.map Mat.isValidColor).getD false

/-- Python `int(x)` applied to a float property value: truncation toward zero. -/
def pyInt (q : ℚ) : Int := if 0 ≤ q then ⌊q⌋ else ⌈q⌉

/-- Errors raised by the modelled OpenCV primitives (`cv2.error`). -/
inductive CvErr where
  | badNumChannels
  | emptySrc
  deriving DecidableEq

/-- OpenCV `COLOR_BGR2GRAY` per-pixel luminance: Rec.601 weights in fixed point
(`R2Y = 4899`, `G2Y = 9617`, `B2Y = 1868`, 14 fractional bits, round to nearest
via `CV_DESCALE`).  Note `1868 + 9617 + 4899 = 16384`. -/
def luma (p : Px) : Nat := (1868 * p.1 + 9617 * p.2.1 + 4899 * p.2.2 + 8192) / 16384

/-- Grayscale conversion of a whole 3-channel frame. -/
def lumaRows (rows : List (List Px)) : List (List Nat) := rows.map (List.map luma)

/-- Color-conversion codes used by the script. -/
inductive CvtCode where
  | BGR2GRAY
  | GRAY2RGB

/-- Model of `cv2.cvtColor` for the two codes the script uses.  OpenCV raises
`cv2.error` when the source is empty or does not have the channel count the
code expects; `COLOR_GRAY2RGB` replicates the single channel three times. -/
def cvtColor (src : Mat) (code : CvtCode) : Except CvErr Mat :=
  match code, src with
  | .BGR2GRAY, .color rows =>
      if gridIsEmpty rows then .error .emptySrc else .ok (.gray (lumaRows rows))
  | .BGR2GRAY, .gray _ => .error .badNumChannels
  | .GRAY2RGB, .gray rows =>
      if gridIsEmpty rows then .error .emptySrc
      else .ok (.color (rows.map (List.map fun v => (v, v, v))))
  | .GRAY2RGB, .color _ => .error .badNumChannels

/-- Machine epsilon of IEEE single precision, `FLT_EPSILON = 2 ^ (-23)`,
as used by OpenCV's Otsu threshold search to skip degenerate splits. -/
def fltEps : ℚ := 1 / 8388608

/-- State threaded through OpenCV's Otsu threshold search. -/
structure OtsuState where
  q1 : ℚ
  mu1 : ℚ
  maxSigma : ℚ
  maxVal : ℚ

/-- One iteration of the histogram scan in OpenCV `getThreshVal_Otsu_8u`
(modules/imgproc/src/thresh.cpp), with exact rationals in place of `double`.
Note the reference updates `mu1` and `q1` before the degenerate-split test, so
a skipped bin still leaves `mu1` multiplied by the previous `q1`. -/
def otsuStep (hist : Nat → ℚ) (scale mu : ℚ) (st : OtsuState) (i : Nat) : OtsuState :=
  let pI := hist i * scale
  let mu1a := st.mu1 * st.q1
  let q1 := st.q1 + pI
  let q2 := 1 - q1
  if min q1 q2 < fltEps ∨ max q1 q2 > 1 - fltEps then
    { st with q1 := q1, mu1 := mu1a }
  else
    let mu1 := (mu1a + (i : ℚ) * pI) / q1
    let mu2 := (mu - q1 * mu1) / q2
    let sigma := q1 * q2 * (mu1 - mu2) * (mu1 - mu2)
    if sigma > st.maxSigma then
      { q1 := q1, mu1 := mu1, maxSigma := sigma, maxVal := (i : ℚ) }
    else
      { q1 := q1, mu1 := mu1, maxSigma := st.maxSigma, maxVal := st.maxVal }

/-- Scan of all 256 histogram bins from the zero-initialised state. -/
def otsuScan (hist : Nat → ℚ) (scale mu : ℚ) : OtsuState :=
  (List.range 256).foldl (otsuStep hist scale mu) ⟨0, 0, 0, 0⟩

/-- Accessor for the scan result: the bin index returned as `max_val`. -/
def otsuMaxVal (st : OtsuState) : ℚ := st.maxVal

/-- Histogram of an 8-bit pixel list, bin `i` holding the count of value `i`. -/
def otsuHist (pix : List Nat) : Nat → ℚ := fun i => (pix.count i : ℚ)

/-- Normalisation factor `1 / (width * height)` of the reference. -/
def otsuScale (pix : List Nat) : ℚ := 1 / (pix.length : ℚ)

/-- Global mean `mu` accumulated over the 256 bins, then scaled. -/
def otsuMu (pix : List Nat) : ℚ :=
  otsuScale pix *
    ((List.range 256).foldl (fun (acc : ℚ) (i : Nat) => acc + (i : ℚ) * otsuHist pix i) 0)

/-- Otsu's automatic threshold as OpenCV computes it: scan the 256-bin
histogram for the split maximising between-class variance, returning the best
bin index (0 when every split is degenerate, e.g. a constant frame). -/
def getThreshValOtsu (rows : List (List Nat)) : ℚ :=
  otsuMaxVal (otsuScan (otsuHist rows.flatten) (otsuScale rows.flatten) (otsuMu rows.flatten))

/-- Thresholding of an 8-bit single-channel grid with `THRESH_BINARY`: OpenCV
floors the threshold to an integer and maps each value `v` to `maxval` when
`v > ithresh` and to 0 otherwise. -/
def threshRows (rows : List (List Nat)) (ithresh : Int) (maxval : Nat) : List (List Nat) :=
  rows.map (List.map fun (v : Nat) => if (v : Int) > ithresh then maxval else 0)

/-- Model of `cv2.threshold` for the call in the script
(`THRESH_BINARY + THRESH_OTSU`, 8-bit single-channel source): when the Otsu
flag is set the threshold argument is ignored and recomputed from this frame's
histogram; returns the used threshold and the binarized frame.  OpenCV asserts
a single-channel source when `THRESH_OTSU` is given. -/
def cv2_threshold (src : Mat) (thresh : ℚ) (maxval : Nat) (otsu : Bool) :
    Except CvErr (ℚ × Mat) :=
  match src with
  | .gray rows =>
      let t : ℚ := if otsu then getThreshValOtsu rows else thresh
      .ok (t, .gray (threshRows rows ⌊t⌋ maxval))
  | .color _ => .error .badNumChannels

/-- Index reflection `BORDER_REFLECT_101` (OpenCV `borderInterpolate`), with
fuel standing in for the reference's do-while loop; the fuel is large enough
that the result is the loop's fixpoint for every in-range query. -/
def reflect101Aux : Nat → Int → Nat → Int
  | 0, p, _ => p
  | fuel + 1, p, len =>
      if 0 ≤ p ∧ p < (len : Int) then p
      else reflect101Aux fuel (if p < 0 then -p else 2 * (len : Int) - p - 2) len

/-- Border reflection without repeating the edge pixel (`gfedcb|abcdefgh|gfedcba`);
a length-1 axis always resolves to index 0, as in the reference. -/
def reflect101 (p : Int) (len : Nat) : Int :=
  if len = 1 then 0 else reflect101Aux (p.natAbs + 2 * len + 2) p len

/-- Pixel fetch with `BORDER_REFLECT_101` padding, as an integer. -/
def atReflect (rows : List (List Nat)) (y x : Int) : Int :=
  (((rows.getD (reflect101 y rows.length).toNat []).getD
      (reflect101 x (gridWidth rows)).toNat 0 : Nat) : Int)

/-- OpenCV `getDerivKernels` separable kernel for a first-order derivative at
aperture 5 (the same vector serves as row and column factor when `dx = dy = 1`). -/
def sobelKernel5 : List Int := [-1, -2, 0, 2, 1]

/-- Raw (signed, unclamped) response at `(y, x)` of the aperture-5 Sobel filter
with a first-order derivative in both directions: correlation with the
separable kernel `sobelKernel5 ⊗ sobelKernel5`, anchored at the kernel centre. -/
def rawSobelXY5 (rows : List (List Nat)) (y x : Nat) : Int :=
  ((List.range 5).map fun i =>
    ((List.range 5).map fun j =>
      sobelKernel5.getD i 0 * sobelKernel5.getD j 0 *
        atReflect rows ((y : Int) + (i : Int) - 2) ((x : Int) + (j : Int) - 2)).sum).sum

/-- OpenCV `saturate_cast<uchar>` on an integer: clamp into `[0, 255]`. -/
def satCast8 (z : Int) : Nat := (max 0 (min z 255)).toNat

/-- Whole-frame aperture-5 Sobel response, saturated to 8 bits. -/
def sobelFrame (rows : List (List Nat)) : List (List Nat) :=
  (List.range rows.length).map fun y =>
    (List.range (gridWidth rows)).map fun x => satCast8 (rawSobelXY5 rows y x)

/-- Model of `cv2.Sobel(img, ddepth=-1, dx=1, dy=1, ksize=5)` on the 8-bit
single-channel frames the script feeds it: `ddepth = -1` keeps the source
depth, so every output value is `saturate_cast<uchar>` of the raw response. -/
def cv2_Sobel_dx1_dy1_k5 (src : Mat) : Except CvErr Mat :=
  match src with
  | .gray rows =>
      if gridIsEmpty rows then .error .emptySrc
      else .ok (.gray (sobelFrame rows))
  | .color _ => .error .badNumChannels

/-- Contents and container metadata of one on-disk video, as seen through
`cv2.VideoCapture`: the four properties the script probes, plus the sequence
of outcomes successive `capture.read()` calls produce (`some frame` for a
decoded frame, `none` for a read that fails before end of stream; after the
list is exhausted every further read fails). -/
structure VideoData where
  fourcc : Int
  fps : ℚ
  width : Nat
  height : Nat
  frameCount : ℚ
  reads : List (Option Mat)

/-- Ambient file system: which paths hold an openable video. -/
def World : Type := String → Option VideoData

/-- Model of `cv2.VideoCapture(path)`: a capture is open iff the path held a
video; an unopened capture is `none`. -/
def cv2_VideoCapture (fs : World) (path : String) : Option VideoData := fs path

/-- Capture properties read by the script. -/
inductive CapProp where
  | fourcc
  | fps
  | frameWidth
  | frameHeight
  | frameCount

/-- Model of `capture.get`: property values of the opened video, and 0.0 for
every property of a capture that failed to open (OpenCV raises nothing here). -/
def capGet (c : Option VideoData) : CapProp → ℚ
  | .fourcc => (c.map fun d => (d.fourcc : ℚ)).getD 0
  | .fps => (c.map VideoData.fps).getD 0
  | .frameWidth => (c.map fun d => (d.width : ℚ)).getD 0
  | .frameHeight => (c.map fun d => (d.height : ℚ)).getD 0
  | .frameCount => (c.map VideoData.frameCount).getD 0

/-- Read outcomes the loop will consume from a capture (none for unopened). -/
def captureReads (c : Option VideoData) : List (Option Mat) :=
  (c.map VideoData.reads).getD []

/-- Lookup in a Python dict literal modelled as an association list (all keys
used by the script are present, so the default is never exercised). -/
def dictGet (d : List (String × ℚ)) (k : String) : ℚ :=
  ((d.find? fun p => p.1 == k).map Prod.snd).getD 0

/-- Embedding of `get_video_parameters` (lines 15-27): `int()`-truncate the
four probed properties and return them under the keys `"fourcc"`, `"fps"`,
`"height"`, `"width"`.  It is total: no branch can raise. -/
def get_video_parameters (capture : Option VideoData) : List (String × ℚ) :=
  let fourcc := pyInt (capGet capture .fourcc)
  let fps := pyInt (capGet capture .fps)
  let height := pyInt (capGet capture .frameHeight)
  let width := pyInt (capGet capture .frameWidth)
  [("fourcc", (fourcc : ℚ)), ("fps", (fps : ℚ)),
   ("height", (height : ℚ)), ("width", (width : ℚ))]

/-- Arguments a `cv2.VideoWriter` was opened with (the script's writers never
pass `isColor` explicitly except grayscale, which passes 0). -/
structure WriterParams where
  path : String
  fourcc : ℚ
  fps : ℚ
  width : ℚ
  height : ℚ
  isColor : Bool
  deriving DecidableEq

/-- Observable effects of one conversion run: writer-open arguments, frames
passed to `write` in order, whether each handle was released and the windows
destroyed, and the `cv2.error` that escaped, if any. -/
structure ConvertResult where
  writerParams : WriterParams
  written : List Mat
  captureReleased : Bool
  writerReleased : Bool
  windowsDestroyed : Bool
  error : Option CvErr
  deriving DecidableEq

/-- Embedding of the shared read/transform/write loop (lines 61-67, 111-119,
163-171): `success, image = capture.read()` then `while success:` apply the
per-frame body, write its result, read the next frame.  A read outcome of
`none` (decode failure or end of stream) makes `success` false and ends the
loop; an exception from the body propagates, abandoning the remaining reads. -/
def frameLoop (body : Mat → Except CvErr Mat) : List (Option Mat) → List Mat × Option CvErr
  | [] => ([], none)
  | none :: _ => ([], none)
  | some image :: rest =>
      match body image with
      | .error e => ([], some e)
      | .ok outFrame =>
          let r := frameLoop body rest
          (outFrame :: r.1, r.2)

/-- Loop body of `convert_video_to_grayscale` (line 64). -/
def grayFrameOp (image : Mat) : Except CvErr Mat := cvtColor image .BGR2GRAY

/-- Loop body of `convert_video_to_black_and_white` (lines 114-116). -/
def bwFrameOp (image : Mat) : Except CvErr Mat := do
  let grayscale_image ← cvtColor image .BGR2GRAY
  let r ← cv2_threshold grayscale_image 0 255 true
  cvtColor r.2 .GRAY2RGB

/-- Loop body of `convert_video_to_sobel` (lines 166-168). -/
def sobelFrameOp (image : Mat) : Except CvErr Mat := do
  let grayscale_image ← cvtColor image .BGR2GRAY
  let sobel_image ← cv2_Sobel_dx1_dy1_k5 grayscale_image
  cvtColor sobel_image .GRAY2RGB

/-- Package the observable effects of one conversion: the release calls and
`cv2.destroyAllWindows()` sit after the loop with no try/finally, so they run
exactly when no exception escaped the loop. -/
def finishConvert (wp : WriterParams) (loopOut : List Mat × Option CvErr) : ConvertResult :=
  match loopOut.2 with
  | some e =>
      { writerParams := wp, written := loopOut.1, captureReleased := false,
        writerReleased := false, windowsDestroyed := false, error := some e }
  | none =>
      { writerParams := wp, written := loopOut.1, captureReleased := true,
        writerReleased := true, windowsDestroyed := true, error := none }

/-- Embedding of `convert_video_to_grayscale` (lines 30-72): probe parameters
through `get_video_parameters`, open the writer with the truncated properties
and `isColor = 0`, then run the loop with the grayscale body. -/
def convert_video_to_grayscale (fs : World) (input_video_path output_video_path : String) :
    ConvertResult :=
  let capture := cv2_VideoCapture fs input_video_path
  let capture_info := get_video_parameters capture
  let wp : WriterParams :=
    { path := output_video_path, fourcc := dictGet capture_info "fourcc",
      fps := dictGet capture_info "fps", width := dictGet capture_info "width",
      height := dictGet capture_info "height", isColor := false }
  finishConvert wp (frameLoop grayFrameOp (captureReads capture))

/-- Embedding of `convert_video_to_black_and_white` (lines 75-124): probe raw
`fps` and `framecount`, truncated `width`/`height`/`codec`, open the writer
with default `isColor = True`, then run the loop with the binarizing body. -/
def convert_video_to_black_and_white (fs : World) (input_video_path output_video_path : String) :
    ConvertResult :=
  let capture := cv2_VideoCapture fs input_video_path
  let capture_info : List (String × ℚ) :=
    [("framecount", capGet capture .frameCount), ("fps", capGet capture .fps),
     ("width", (pyInt (capGet capture .frameWidth) : ℚ)),
     ("height", (pyInt (capGet capture .frameHeight) : ℚ)),
     ("codec", (pyInt (capGet capture .fourcc) : ℚ))]
  let wp : WriterParams :=
    { path := output_video_path, fourcc := dictGet capture_info "codec",
      fps := dictGet capture_info "fps", width := dictGet capture_info "width",
      height := dictGet capture_info "height", isColor := true }
  finishConvert wp (frameLoop bwFrameOp (captureReads capture))

/-- Embedding of `convert_video_to_sobel` (lines 127-176): identical framing to
the black-and-white conversion with the Sobel body. -/
def convert_video_to_sobel (fs : World) (input_video_path output_video_path : String) :
    ConvertResult :=
  let capture := cv2_VideoCapture fs input_video_path
  let capture_info : List (String × ℚ) :=
    [("framecount", capGet capture .frameCount), ("fps", capGet capture .fps),
     ("width", (pyInt (capGet capture .frameWidth) : ℚ)),
     ("height", (pyInt (capGet capture .frameHeight) : ℚ)),
     ("codec", (pyInt (capGet capture .fourcc) : ℚ))]
  let wp : WriterParams :=
    { path := output_video_path, fourcc := dictGet capture_info "codec",
      fps := dictGet capture_info "fps", width := dictGet capture_info "width",
      height := dictGet capture_info "height", isColor := true }
  finishConvert wp (frameLoop sobelFrameOp (captureReads capture))

/-- Student id constant `ID1` (line 6). -/
def ID1 : String := "203135058"

/-- Student id constant `ID2` (line 7). -/
def ID2 : String := "203764170"

/-- Input path constant (line 9). -/
def INPUT_VIDEO : String := "atrium.avi"

/-- Grayscale output path (line 10). -/
def GRAYSCALE_VIDEO : String := ID1 ++ "_" ++ ID2 ++ "_atrium_grayscale.avi"

/-- Black-and-white output path (line 11). -/
def BLACK_AND_WHITE_VIDEO : String := ID1 ++ "_" ++ ID2 ++ "_atrium_black_and_white.avi"

/-- Sobel output path (line 12). -/
def SOBEL_VIDEO : String := ID1 ++ "_" ++ ID2 ++ "_atrium_sobel.avi"

/-- Outcome of running the script's entry point: the conversions that actually
ran (an uncaught exception abandons the rest) and the process exit status
(0 for a normal return from `main`, 1 for an uncaught exception). -/
structure MainResult where
  gray : ConvertResult
  bw : Option ConvertResult
  sobel : Option ConvertResult
  exitCode : Nat
  deriving DecidableEq

/-- Embedding of `main` (lines 179-182) under `if __name__ == "__main__"`:
the three conversions run unconditionally in sequence on the fixed paths; an
exception escaping one of them aborts the process with a nonzero status. -/
def main_run (fs : World) : MainResult :=
  let g := convert_video_to_grayscale fs INPUT_VIDEO GRAYSCALE_VIDEO
  match g.error with
  | some _ => { gray := g, bw := none, sobel := none, exitCode := 1 }
  | none =>
      let b := convert_video_to_black_and_white fs INPUT_VIDEO BLACK_AND_WHITE_VIDEO
      match b.error with
      | some _ => { gray := g, bw := some b, sobel := none, exitCode := 1 }
      | none =>
          let s := convert_video_to_sobel fs INPUT_VIDEO SOBEL_VIDEO
          { gray := g, bw := some b, sobel := some s,
            exitCode := if s.error.isSome then 1 else 0 }

/-- Ambient file system with no openable video at any path. -/
def emptyWorld : World := fun _ => none

/-- Ambient file system holding the same video at every path. -/
def worldOf (d : VideoData) : World := fun _ => some d

/-- Luminance samples of a frame: for a gray frame its values, for a color
frame the first (blue) channel of every pixel — faithful for the program's
outputs, whose three channels are everywhere equal. -/
def frameLums : Mat → List Nat
  | .gray rows => rows.flatten
  | .color rows => (rows.map (List.map fun p => p.1)).flatten

/-- Demo 2x2 color frame (channel values 1..12). -/
def demoFrameA : Mat := .color [[(1, 2, 3), (4, 5, 6)], [(7, 8, 9), (10, 11, 12)]]

/-- Second demo frame with different content. -/
def demoFrameB : Mat := .color [[(200, 0, 50), (9, 9, 9)], [(0, 0, 0), (255, 255, 255)]]

/-- Demo video: two valid color frames at 30 fps. -/
def demoVideo : VideoData :=
  { fourcc := 1145656920, fps := 30, width := 2, height := 2, frameCount := 2,
    reads := [some demoFrameA, some demoFrameB] }

/-- Same two demo frames in the opposite order. -/
def demoVideoSwapped : VideoData :=
  { fourcc := 1145656920, fps := 30, width := 2, height := 2, frameCount := 2,
    reads := [some demoFrameB, some demoFrameA] }

/-- Video with a single all-black frame. -/
def blackFrameVideo : VideoData :=
  { fourcc := 0, fps := 1, width := 1, height := 1, frameCount := 1,
    reads := [some (.color [[(0, 0, 0)]])] }

/-- Video whose only read yields an empty (zero-pixel) frame, on which
`cv2.cvtColor` raises mid-loop. -/
def emptyFrameVideo : VideoData :=
  { fourcc := 0, fps := 1, width := 1, height := 1, frameCount := 1,
    reads := [some (.color [])] }

/-- Rational 5/2, a non-integral frame rate (like a 2.5 fps stream). -/
def fiveHalves : ℚ := ⟨5, 2, by decide, by decide⟩

/-- Rational 7/2. -/
def sevenHalves : ℚ := ⟨7, 2, by decide, by decide⟩

/-- Zero-frame video with non-integral frame rate 5/2. -/
def fracFpsVideo : VideoData :=
  { fourcc := 0, fps := fiveHalves, width := 4, height := 3, frameCount := 0, reads := [] }

/-- Zero-frame video with non-integral frame rate 7/2. -/
def fracFpsVideoB : VideoData :=
  { fourcc := 0, fps := sevenHalves, width := 4, height := 3, frameCount := 0, reads := [] }

/-! ### Helper lemmas -/

theorem finishConvert_writerParams (wp : WriterParams) (l : List Mat × Option CvErr) :
    (finishConvert wp l).writerParams = wp := by
  unfold finishConvert
  cases l.2 <;> rfl

theorem finishConvert_written (wp : WriterParams) (l : List Mat × Option CvErr) :
    (finishConvert wp l).written = l.1 := by
  unfold finishConvert
  cases l.2 <;> rfl

theorem finishConvert_error (wp : WriterParams) (l : List Mat × Option CvErr) :
    (finishConvert wp l).error = l.2 := by
  unfold finishConvert
  cases h : l.2 <;> simp [h]

theorem finishConvert_released (wp : WriterParams) (l : List Mat × Option CvErr) :
    (finishConvert wp l).captureReleased = l.2.isNone ∧
      (finishConvert wp l).writerReleased = l.2.isNone := by
  unfold finishConvert
  cases h : l.2 <;> simp [h]

theorem gray_writerParams (fs : World) (inp outp : String) :
    (convert_video_to_grayscale fs inp outp).writerParams =
      { path := outp, fourcc := (pyInt (capGet (fs inp) .fourcc) : ℚ),
        fps := (pyInt (capGet (fs inp) .fps) : ℚ),
        width := (pyInt (capGet (fs inp) .frameWidth) : ℚ),
        height := (pyInt (capGet (fs inp) .frameHeight) : ℚ), isColor := false } := by
  unfold convert_video_to_grayscale
  rw [finishConvert_writerParams]
  rfl

theorem bw_writerParams (fs : World) (inp outp : String) :
    (convert_video_to_black_and_white fs inp outp).writerParams =
      { path := outp, fourcc := (pyInt (capGet (fs inp) .fourcc) : ℚ),
        fps := capGet (fs inp) .fps,
        width := (pyInt (capGet (fs inp) .frameWidth) : ℚ),
        height := (pyInt (capGet (fs inp) .frameHeight) : ℚ), isColor := true } := by
  unfold convert_video_to_black_and_white
  rw [finishConvert_writerParams]
  rfl

theorem sobel_writerParams (fs : World) (inp outp : String) :
    (convert_video_to_sobel fs inp outp).writerParams =
      { path := outp, fourcc := (pyInt (capGet (fs inp) .fourcc) : ℚ),
        fps := capGet (fs inp) .fps,
        width := (pyInt (capGet (fs inp) .frameWidth) : ℚ),
        height := (pyInt (capGet (fs inp) .frameHeight) : ℚ), isColor := true } := by
  unfold convert_video_to_sobel
  rw [finishConvert_writerParams]
  rfl

theorem pyInt_intCast (n : Int) : pyInt (n : ℚ) = n := by
  unfold pyInt
  split <;> simp

theorem pyInt_natCast (n : Nat) : pyInt (n : ℚ) = (n : Int) := by
  have := pyInt_intCast (n : Int)
  simpa using this

theorem pyInt_of_den_one (q : ℚ) (h : q.den = 1) : ((pyInt q : Int) : ℚ) = q := by
  have hq : ((q.num : Int) : ℚ) = q := by
    rw [← Rat.den_eq_one_iff]
    exact h
  calc ((pyInt q : Int) : ℚ) = ((pyInt ((q.num : Int) : ℚ) : Int) : ℚ) := by rw [hq]
    _ = ((q.num : Int) : ℚ) := by rw [pyInt_intCast]
    _ = q := hq

theorem frameLoop_append_none (body : Mat → Except CvErr Mat)
    (r1 r2 : List (Option Mat)) :
    frameLoop body (r1 ++ none :: r2) = frameLoop body r1 := by
  induction r1 with
  | nil => rfl
  | cons o rest ih =>
      cases o with
      | none => rfl
      | some f =>
          simp only [List.cons_append, frameLoop]
          cases body f with
          | error e => rfl
          | ok g => simp [ih]

theorem frameLoop_spec (body : Mat → Except CvErr Mat) :
    ∀ reads : List (Option Mat),
      (∀ o ∈ reads, ∃ f g, o = some f ∧ body f = .ok g) →
      (frameLoop body reads).2 = none ∧
        (frameLoop body reads).1.length = reads.length ∧
        ∀ (k : Nat) (f : Mat), reads[k]? = some (some f) →
          ∃ g, body f = .ok g ∧ (frameLoop body reads).1[k]? = some g := by
  intro reads
  induction reads with
  | nil =>
      intro _
      refine ⟨rfl, rfl, ?_⟩
      intro k f hk
      simp at hk
  | cons o rest ih =>
      intro h
      obtain ⟨f, g, rfl, hfg⟩ := h o (List.mem_cons_self o rest)
      have hrest := ih fun o ho => h o (List.mem_cons_of_mem _ ho)
      obtain ⟨he, hlen, hget⟩ := hrest
      simp only [frameLoop, hfg]
      refine ⟨he, by simpa using hlen, ?_⟩
      intro k f' hk
      cases k with
      | zero =>
          simp at hk
          subst hk
          exact ⟨g, hfg, by simp⟩
      | succ n =>
          simp at hk
          obtain ⟨g', hg', hget'⟩ := hget n f' (by simpa using hk)
          exact ⟨g', hg', by simpa using hget'⟩

theorem otsuFold_maxVal_nonneg (hist : Nat → ℚ) (scale mu : ℚ) :
    ∀ (l : List Nat) (st : OtsuState), 0 ≤ otsuMaxVal st →
      0 ≤ otsuMaxVal (l.foldl (otsuStep hist scale mu) st) := by
  intro l
  induction l with
  | nil => intro st h; exact h
  | cons i rest ih =>
      intro st h
      refine ih _ ?_
      unfold otsuMaxVal at h ⊢
      unfold otsuStep
      dsimp only
      split
      · exact h
      · split
        · exact Nat.cast_nonneg i
        · exact h

theorem otsuScan_maxVal_nonneg (hist : Nat → ℚ) (scale mu : ℚ) :
    0 ≤ otsuMaxVal (otsuScan hist scale mu) :=
  otsuFold_maxVal_nonneg hist scale mu (List.range 256) ⟨0, 0, 0, 0⟩ le_rfl

theorem otsu_nonneg (rows : List (List Nat)) : 0 ≤ getThreshValOtsu rows :=
  otsuScan_maxVal_nonneg _ _ _

theorem otsu_floor_nonneg (rows : List (List Nat)) : 0 ≤ ⌊getThreshValOtsu rows⌋ :=
  Int.le_floor.mpr (by exact_mod_cast otsu_nonneg rows)

theorem isEmpty_map {α β : Type} (f : α → β) (l : List α) :
    (l.map f).isEmpty = l.isEmpty := by
  cases l <;> rfl

theorem validColor_not_empty {rows : List (List Px)}
    (h : (Mat.color rows).isValidColor = true) : gridIsEmpty rows = false := by
  unfold Mat.isValidColor at h
  rw [Bool.and_eq_true] at h
  obtain ⟨h1, h2⟩ := h
  cases rows with
  | nil => simp at h1
  | cons r t =>
      rw [List.all_eq_true] at h2
      have hr := h2 r (List.mem_cons_self r t)
      rw [Bool.and_eq_true, Bool.and_eq_true] at hr
      simp [gridIsEmpty]
      simpa using hr.1.1

theorem gridIsEmpty_mapmap {α β : Type} (f : α → β) (rows : List (List α)) :
    gridIsEmpty (rows.map (List.map f)) = gridIsEmpty rows := by
  cases rows with
  | nil => rfl
  | cons r t => simp [gridIsEmpty, isEmpty_map]

theorem gridIsEmpty_lumaRows (rows : List (List Px)) :
    gridIsEmpty (lumaRows rows) = gridIsEmpty rows := gridIsEmpty_mapmap _ _

theorem gridIsEmpty_threshRows (rows : List (List Nat)) (it : Int) (mv : Nat) :
    gridIsEmpty (threshRows rows it mv) = gridIsEmpty rows := gridIsEmpty_mapmap _ _

theorem isEmpty_range (n : Nat) : (List.range n).isEmpty = decide (n = 0) := by
  cases n with
  | zero => rfl
  | succ m => rw [List.range_succ_eq_map]; simp

theorem gridIsEmpty_sobelFrame (rows : List (List Nat)) :
    gridIsEmpty (sobelFrame rows) = gridIsEmpty rows := by
  cases rows with
  | nil => rfl
  | cons r t =>
      show gridIsEmpty ((List.range (r :: t).length).map _) = _
      rw [List.length_cons, List.range_succ_eq_map]
      simp [gridIsEmpty, isEmpty_map, gridWidth, isEmpty_range]
      cases r <;> simp

theorem grayFrameOp_valid {rows : List (List Px)}
    (h : (Mat.color rows).isValidColor = true) :
    grayFrameOp (.color rows) = .ok (.gray (lumaRows rows)) := by
  simp [grayFrameOp, cvtColor, validColor_not_empty h]

theorem bwFrameOp_valid {rows : List (List Px)}
    (h : (Mat.color rows).isValidColor = true) :
    bwFrameOp (.color rows) =
      .ok (.color ((threshRows (lumaRows rows) ⌊getThreshValOtsu (lumaRows rows)⌋ 255).map
        (List.map fun v => (v, v, v)))) := by
  have hne := validColor_not_empty h
  simp [bwFrameOp, cvtColor, cv2_threshold, hne, gridIsEmpty_threshRows,
    gridIsEmpty_lumaRows, Bind.bind, Except.bind]

theorem sobelFrameOp_valid {rows : List (List Px)}
    (h : (Mat.color rows).isValidColor = true) :
    sobelFrameOp (.color rows) =
      .ok (.color ((sobelFrame (lumaRows rows)).map (List.map fun v => (v, v, v)))) := by
  have hne := validColor_not_empty h
  simp [sobelFrameOp, cvtColor, cv2_Sobel_dx1_dy1_k5, hne, gridIsEmpty_sobelFrame,
    gridIsEmpty_lumaRows, Bind.bind, Except.bind]

theorem gray_run_eq (fs : World) (inp outp : String) (d : VideoData) (hfs : fs inp = some d) :
    convert_video_to_grayscale fs inp outp =
      finishConvert
        { path := outp, fourcc := ((pyInt (d.fourcc : ℚ) : Int) : ℚ),
          fps := ((pyInt d.fps : Int) : ℚ), width := ((pyInt (d.width : ℚ) : Int) : ℚ),
          height := ((pyInt (d.height : ℚ) : Int) : ℚ), isColor := false }
        (frameLoop grayFrameOp d.reads) := by
  unfold convert_video_to_grayscale cv2_VideoCapture
  rw [hfs]
  rfl

theorem bw_run_eq (fs : World) (inp outp : String) (d : VideoData) (hfs : fs inp = some d) :
    convert_video_to_black_and_white fs inp outp =
      finishConvert
        { path := outp, fourcc := ((pyInt (d.fourcc : ℚ) : Int) : ℚ),
          fps := d.fps, width := ((pyInt (d.width : ℚ) : Int) : ℚ),
          height := ((pyInt (d.height : ℚ) : Int) : ℚ), isColor := true }
        (frameLoop bwFrameOp d.reads) := by
  unfold convert_video_to_black_and_white cv2_VideoCapture
  rw [hfs]
  rfl

theorem sobel_run_eq (fs : World) (inp outp : String) (d : VideoData) (hfs : fs inp = some d) :
    convert_video_to_sobel fs inp outp =
      finishConvert
        { path := outp, fourcc := ((pyInt (d.fourcc : ℚ) : Int) : ℚ),
          fps := d.fps, width := ((pyInt (d.width : ℚ) : Int) : ℚ),
          height := ((pyInt (d.height : ℚ) : Int) : ℚ), isColor := true }
        (frameLoop sobelFrameOp d.reads) := by
  unfold convert_video_to_sobel cv2_VideoCapture
  rw [hfs]
  rfl

theorem validReads_body_ok (body : Mat → Except CvErr Mat)
    (hbody : ∀ rows : List (List Px), (Mat.color rows).isValidColor = true →
      ∃ g, body (Mat.color rows) = .ok g)
    (reads : List (Option Mat)) (hv : allValidReads reads = true) :
    ∀ o ∈ reads, ∃ f g, o = some f ∧ body f = .ok g := by
  intro o ho
  unfold allValidReads at hv
  rw [List.all_eq_true] at hv
  have hvo := hv o ho
  cases o with
  | none => simp at hvo
  | some f =>
      cases f with
      | gray g => simp [Mat.isValidColor] at hvo
      | color rows =>
          obtain ⟨g, hg⟩ := hbody rows (by simpa using hvo)
          exact ⟨_, g, rfl, hg⟩

theorem validReads_at (reads : List (Option Mat)) (hv : allValidReads reads = true)
    (k : Nat) (f : Mat) (hk : reads[k]? = some (some f)) :
    ∃ rows, f = .color rows ∧ (Mat.color rows).isValidColor = true := by
  unfold allValidReads at hv
  rw [List.all_eq_true] at hv
  have hmem : some f ∈ reads := by
    have := List.getElem?_mem hk
    exact this
  have hvf := hv _ hmem
  cases f with
  | gray g => simp [Mat.isValidColor] at hvf
  | color rows => exact ⟨rows, rfl, by simpa using hvf⟩

theorem gray_run_spec (fs : World) (inp outp : String) (d : VideoData)
    (hfs : fs inp = some d) (hv : allValidReads d.reads = true) :
    (convert_video_to_grayscale fs inp outp).error = none ∧
      (convert_video_to_grayscale fs inp outp).written.length = d.reads.length ∧
      (convert_video_to_grayscale fs inp outp).captureReleased = true ∧
      (convert_video_to_grayscale fs inp outp).writerReleased = true ∧
      ∀ (k : Nat) (f : Mat), d.reads[k]? = some (some f) →
        ∃ rows, f = .color rows ∧
          (convert_video_to_grayscale fs inp outp).written[k]? =
            some (.gray (lumaRows rows)) := by
  have hok := validReads_body_ok grayFrameOp
    (fun rows hr => ⟨_, grayFrameOp_valid hr⟩) d.reads hv
  obtain ⟨he, hlen, hget⟩ := frameLoop_spec grayFrameOp d.reads hok
  rw [gray_run_eq fs inp outp d hfs]
  rw [finishConvert_error, finishConvert_written]
  obtain ⟨hc, hw⟩ := finishConvert_released
    { path := outp, fourcc := ((pyInt (d.fourcc : ℚ) : Int) : ℚ),
      fps := ((pyInt d.fps : Int) : ℚ), width := ((pyInt (d.width : ℚ) : Int) : ℚ),
      height := ((pyInt (d.height : ℚ) : Int) : ℚ), isColor := false }
    (frameLoop grayFrameOp d.reads)
  refine ⟨he, hlen, by rw [hc, he]; rfl, by rw [hw, he]; rfl, ?_⟩
  intro k f hk
  obtain ⟨rows, rfl, hval⟩ := validReads_at d.reads hv k f hk
  obtain ⟨g, hg, hwk⟩ := hget k _ hk
  rw [grayFrameOp_valid hval] at hg
  refine ⟨rows, rfl, ?_⟩
  rw [hwk]
  cases hg
  rfl

theorem bw_run_spec (fs : World) (inp outp : String) (d : VideoData)
    (hfs : fs inp = some d) (hv : allValidReads d.reads = true) :
    (convert_video_to_black_and_white fs inp outp).error = none ∧
      (convert_video_to_black_and_white fs inp outp).written.length = d.reads.length ∧
      (convert_video_to_black_and_white fs inp outp).captureReleased = true ∧
      (convert_video_to_black_and_white fs inp outp).writerReleased = true ∧
      ∀ (k : Nat) (f : Mat), d.reads[k]? = some (some f) →
        ∃ rows, f = .color rows ∧
          (convert_video_to_black_and_white fs inp outp).written[k]? =
            some (.color ((threshRows (lumaRows rows)
              ⌊getThreshValOtsu (lumaRows rows)⌋ 255).map
                (List.map fun v => (v, v, v)))) := by
  have hok := validReads_body_ok bwFrameOp
    (fun rows hr => ⟨_, bwFrameOp_valid hr⟩) d.reads hv
  obtain ⟨he, hlen, hget⟩ := frameLoop_spec bwFrameOp d.reads hok
  rw [bw_run_eq fs inp outp d hfs]
  rw [finishConvert_error, finishConvert_written]
  obtain ⟨hc, hw⟩ := finishConvert_released
    { path := outp, fourcc := ((pyInt (d.fourcc : ℚ) : Int) : ℚ),
      fps := d.fps, width := ((pyInt (d.width : ℚ) : Int) : ℚ),
      height := ((pyInt (d.height : ℚ) : Int) : ℚ), isColor := true }
    (frameLoop bwFrameOp d.reads)
  refine ⟨he, hlen, by rw [hc, he]; rfl, by rw [hw, he]; rfl, ?_⟩
  intro k f hk
  obtain ⟨rows, rfl, hval⟩ := validReads_at d.reads hv k f hk
  obtain ⟨g, hg, hwk⟩ := hget k _ hk
  rw [bwFrameOp_valid hval] at hg
  refine ⟨rows, rfl, ?_⟩
  rw [hwk]
  cases hg
  rfl

theorem sobel_run_spec (fs : World) (inp outp : String) (d : VideoData)
    (hfs : fs inp = some d) (hv : allValidReads d.reads = true) :
    (convert_video_to_sobel fs inp outp).error = none ∧
      (convert_video_to_sobel fs inp outp).written.length = d.reads.length ∧
      (convert_video_to_sobel fs inp outp).captureReleased = true ∧
      (convert_video_to_sobel fs inp outp).writerReleased = true ∧
      ∀ (k : Nat) (f : Mat), d.reads[k]? = some (some f) →
        ∃ rows, f = .color rows ∧
          (convert_video_to_sobel fs inp outp).written[k]? =
            some (.color ((sobelFrame (lumaRows rows)).map
              (List.map fun v => (v, v, v)))) := by
  have hok := validReads_body_ok sobelFrameOp
    (fun rows hr => ⟨_, sobelFrameOp_valid hr⟩) d.reads hv
  obtain ⟨he, hlen, hget⟩ := frameLoop_spec sobelFrameOp d.reads hok
  rw [sobel_run_eq fs inp outp d hfs]
  rw [finishConvert_error, finishConvert_written]
  obtain ⟨hc, hw⟩ := finishConvert_released
    { path := outp, fourcc := ((pyInt (d.fourcc : ℚ) : Int) : ℚ),
      fps := d.fps, width := ((pyInt (d.width : ℚ) : Int) : ℚ),
      height := ((pyInt (d.height : ℚ) : Int) : ℚ), isColor := true }
    (frameLoop sobelFrameOp d.reads)
  refine ⟨he, hlen, by rw [hc, he]; rfl, by rw [hw, he]; rfl, ?_⟩
  intro k f hk
  obtain ⟨rows, rfl, hval⟩ := validReads_at d.reads hv k f hk
  obtain ⟨g, hg, hwk⟩ := hget k _ hk
  rw [sobelFrameOp_valid hval] at hg
  refine ⟨rows, rfl, ?_⟩
  rw [hwk]
  cases hg
  rfl

theorem luma_bounds (b g r : Nat) :
    16384 * luma (b, g, r) ≤ 1868 * b + 9617 * g + 4899 * r + 8192 ∧
      1868 * b + 9617 * g + 4899 * r + 8192 < 16384 * luma (b, g, r) + 16384 := by
  unfold luma
  dsimp only
  omega

theorem luma_tolerance (b g r : Nat) (hb : b ≤ 255) (hg : g ≤ 255) (hr : r ≤ 255) :
    |((luma (b, g, r) : ℚ)) -
        (299 / 1000 * (r : ℚ) + 587 / 1000 * (g : ℚ) + 114 / 1000 * (b : ℚ))| ≤ 1 := by
  obtain ⟨h1, h2⟩ := luma_bounds b g r
  have q1 : 16384 * ((luma (b, g, r) : ℚ)) ≤
      1868 * (b : ℚ) + 9617 * (g : ℚ) + 4899 * (r : ℚ) + 8192 := by exact_mod_cast h1
  have q2 : 1868 * (b : ℚ) + 9617 * (g : ℚ) + 4899 * (r : ℚ) + 8192 <
      16384 * ((luma (b, g, r) : ℚ)) + 16384 := by exact_mod_cast h2
  have qb : (b : ℚ) ≤ 255 := by exact_mod_cast hb
  have qg : (g : ℚ) ≤ 255 := by exact_mod_cast hg
  have qr : (r : ℚ) ≤ 255 := by exact_mod_cast hr
  have qb0 : (0 : ℚ) ≤ (b : ℚ) := Nat.cast_nonneg b
  have qg0 : (0 : ℚ) ≤ (g : ℚ) := Nat.cast_nonneg g
  have qr0 : (0 : ℚ) ≤ (r : ℚ) := Nat.cast_nonneg r
  rw [abs_le]
  constructor <;> linarith

theorem replicate_channels_eq (g : List (List Nat)) :
    ∀ row ∈ g.map (List.map fun v => (v, v, v)), ∀ p ∈ row,
      p.1 = p.2.1 ∧ p.2.1 = p.2.2 := by
  intro row hrow p hp
  rw [List.mem_map] at hrow
  obtain ⟨r0, _, rfl⟩ := hrow
  rw [List.mem_map] at hp
  obtain ⟨v, _, rfl⟩ := hp
  exact ⟨rfl, rfl⟩

theorem satCast8_le (z : Int) : satCast8 z ≤ 255 := by
  unfold satCast8
  have h : max 0 (min z 255) ≤ 255 := max_le (by norm_num) (min_le_right _ _)
  omega

theorem satCast8_spec (z : Int) : (satCast8 z : Int) = max 0 (min z 255) := by
  unfold satCast8
  exact Int.toNat_of_nonneg (le_max_left _ _)

theorem sobelFrame_getD (g : List (List Nat)) (y x : Nat)
    (hy : y < g.length) (hx : x < gridWidth g) :
    ((sobelFrame g).getD y []).getD x 0 = satCast8 (rawSobelXY5 g y x) := by
  unfold sobelFrame
  have h1 : (List.map (fun yy => List.map (fun xx => satCast8 (rawSobelXY5 g yy xx))
      (List.range (gridWidth g))) (List.range g.length)).getD y [] =
      List.map (fun xx => satCast8 (rawSobelXY5 g y xx)) (List.range (gridWidth g)) := by
    rw [List.getD_eq_getElem?_getD, List.getElem?_map, List.getElem?_range hy]
    rfl
  rw [h1, List.getD_eq_getElem?_getD, List.getElem?_map, List.getElem?_range hx]
  rfl

theorem threshRows_mem (g : List (List Nat)) (it : Int) (mv : Nat) :
    ∀ row ∈ threshRows g it mv, ∀ v ∈ row, v = mv ∨ v = 0 := by
  intro row hrow v hv
  unfold threshRows at hrow
  rw [List.mem_map] at hrow
  obtain ⟨r0, _, rfl⟩ := hrow
  rw [List.mem_map] at hv
  obtain ⟨w, _, rfl⟩ := hv
  by_cases h : ((w : Nat) : Int) > it
  · exact Or.inl (by simp [h])
  · exact Or.inr (by simp [h])

theorem main_run_gray (fs : World) :
    (main_run fs).gray = convert_video_to_grayscale fs INPUT_VIDEO GRAYSCALE_VIDEO := by
  unfold main_run
  dsimp only
  split
  · rfl
  · split
    · rfl
    · rfl

theorem main_run_seq (fs : World) :
    ((convert_video_to_grayscale fs INPUT_VIDEO GRAYSCALE_VIDEO).error = none →
        (main_run fs).bw =
          some (convert_video_to_black_and_white fs INPUT_VIDEO BLACK_AND_WHITE_VIDEO)) ∧
      ((convert_video_to_grayscale fs INPUT_VIDEO GRAYSCALE_VIDEO).error = none →
        (convert_video_to_black_and_white fs INPUT_VIDEO BLACK_AND_WHITE_VIDEO).error = none →
        (main_run fs).sobel = some (convert_video_to_sobel fs INPUT_VIDEO SOBEL_VIDEO)) ∧
      ((convert_video_to_grayscale fs INPUT_VIDEO GRAYSCALE_VIDEO).error ≠ none →
        (main_run fs).bw = none ∧ (main_run fs).sobel = none ∧ (main_run fs).exitCode = 1) ∧
      ((main_run fs).exitCode = 0 ↔
        (convert_video_to_grayscale fs INPUT_VIDEO GRAYSCALE_VIDEO).error = none ∧
          (convert_video_to_black_and_white fs INPUT_VIDEO BLACK_AND_WHITE_VIDEO).error = none ∧
          (convert_video_to_sobel fs INPUT_VIDEO SOBEL_VIDEO).error = none) := by
  unfold main_run
  cases hg : (convert_video_to_grayscale fs INPUT_VIDEO GRAYSCALE_VIDEO).error with
  | some e => simp [hg]
  | none =>
      cases hb : (convert_video_to_black_and_white fs INPUT_VIDEO BLACK_AND_WHITE_VIDEO).error with
      | some e => simp [hg, hb]
      | none =>
          cases hs : (convert_video_to_sobel fs INPUT_VIDEO SOBEL_VIDEO).error with
          | some e => simp [hg, hb, hs]
          | none => simp [hg, hb, hs]

/-! ### Claim theorems -/

/-- Claim C1: for a valid input video each of the three conversion pipelines
writes exactly one output frame per successfully read input frame, in source
order — the frame written at position `k` is the converted frame read at
position `k`, so each output's frame count equals the input's with nothing
skipped, dropped, duplicated or reordered — and a zero-frame input produces a
zero-frame output for all three pipelines without error. -/
theorem C1_one_output_frame_per_read (fs : World) (inp outg outb outs : String)
    (d : VideoData) (hfs : fs inp = some d) (hv : allValidReads d.reads = true) :
    ((convert_video_to_grayscale fs inp outg).written.length = d.reads.length ∧
        (convert_video_to_grayscale fs inp outg).error = none) ∧
      ((convert_video_to_black_and_white fs inp outb).written.length = d.reads.length ∧
        (convert_video_to_black_and_white fs inp outb).error = none) ∧
      ((convert_video_to_sobel fs inp outs).written.length = d.reads.length ∧
        (convert_video_to_sobel fs inp outs).error = none) ∧
      (∀ (k : Nat) (f : Mat), d.reads[k]? = some (some f) →
        ∃ rows, f = .color rows ∧
          (convert_video_to_grayscale fs inp outg).written[k]? =
            some (.gray (lumaRows rows)) ∧
          (convert_video_to_black_and_white fs inp outb).written[k]? =
            some (.color ((threshRows (lumaRows rows)
              ⌊getThreshValOtsu (lumaRows rows)⌋ 255).map (List.map fun v => (v, v, v)))) ∧
          (convert_video_to_sobel fs inp outs).written[k]? =
            some (.color ((sobelFrame (lumaRows rows)).map (List.map fun v => (v, v, v))))) ∧
      (d.reads = [] →
        (convert_video_to_grayscale fs inp outg).written = [] ∧
          (convert_video_to_black_and_white fs inp outb).written = [] ∧
          (convert_video_to_sobel fs inp outs).written = []) := by
  obtain ⟨ge, glen, _, _, gget⟩ := gray_run_spec fs inp outg d hfs hv
  obtain ⟨be, blen, _, _, bget⟩ := bw_run_spec fs inp outb d hfs hv
  obtain ⟨se, slen, _, _, sget⟩ := sobel_run_spec fs inp outs d hfs hv
  refine ⟨⟨glen, ge⟩, ⟨blen, be⟩, ⟨slen, se⟩, ?_, ?_⟩
  · intro k f hk
    obtain ⟨rows, rfl, hg⟩ := gget k f hk
    obtain ⟨rows2, heq, hb⟩ := bget k _ hk
    obtain ⟨rows3, heq3, hs⟩ := sget k _ hk
    cases heq
    cases heq3
    exact ⟨rows, rfl, hg, hb, hs⟩
  · intro hnil
    rw [hnil] at glen blen slen
    exact ⟨List.eq_nil_of_length_eq_zero glen, List.eq_nil_of_length_eq_zero blen,
      List.eq_nil_of_length_eq_zero slen⟩

/-- Witness for C1 at a concrete two-frame video. -/
theorem C1_one_output_frame_per_read_witness :
    (convert_video_to_grayscale (worldOf demoVideo) INPUT_VIDEO
        GRAYSCALE_VIDEO).written.length = demoVideo.reads.length ∧
      (convert_video_to_black_and_white (worldOf demoVideo) INPUT_VIDEO
        BLACK_AND_WHITE_VIDEO).written.length = demoVideo.reads.length :=
  have h := C1_one_output_frame_per_read (worldOf demoVideo) INPUT_VIDEO GRAYSCALE_VIDEO
    BLACK_AND_WHITE_VIDEO SOBEL_VIDEO demoVideo rfl (by decide)
  ⟨h.1.1, h.2.1.1⟩

/-- Frame luminances of a channel-replicated frame are the underlying values. -/
theorem frameLums_replicate (g : List (List Nat)) :
    frameLums (.color (g.map (List.map fun v => (v, v, v)))) = g.flatten := by
  simp only [frameLums]
  rw [List.map_map]
  have h1 : ∀ r : List Nat,
      ((List.map fun p : Px => p.1) ∘ List.map fun v : Nat => (v, v, v)) r = r := by
    intro r
    rw [Function.comp_apply, List.map_map]
    exact List.map_id'' (fun v => rfl) r
  rw [List.map_id'' h1 g]

/-- Claim C2 (amended): in every frame of the black-and-white output, the three
channels of every pixel are equal to each other, and every luminance value is
0 or 255 — the set of distinct luminance values per frame is a subset of
`{0, 255}`, not always exactly `{0, 255}`: a constant input frame binarizes to
a single value (see the counterexample). -/
theorem C2_bw_channels_eq_and_binary (fs : World) (inp outp : String) (d : VideoData)
    (hfs : fs inp = some d) (hv : allValidReads d.reads = true) :
    (convert_video_to_black_and_white fs inp outp).written.length = d.reads.length ∧
      ∀ (k : Nat) (f : Mat), d.reads[k]? = some (some f) →
        ∃ m : Mat, (convert_video_to_black_and_white fs inp outp).written[k]? = some m ∧
          (∃ rows, m = .color rows ∧ ∀ row ∈ rows, ∀ p ∈ row,
            p.1 = p.2.1 ∧ p.2.1 = p.2.2) ∧
          ∀ v ∈ frameLums m, v = 0 ∨ v = 255 := by
  obtain ⟨_, blen, _, _, bget⟩ := bw_run_spec fs inp outp d hfs hv
  refine ⟨blen, ?_⟩
  intro k f hk
  obtain ⟨rows, rfl, hb⟩ := bget k _ hk
  refine ⟨_, hb, ⟨_, rfl, replicate_channels_eq _⟩, ?_⟩
  intro v hvmem
  rw [frameLums_replicate] at hvmem
  rw [List.mem_flatten] at hvmem
  obtain ⟨row, hrow, hvrow⟩ := hvmem
  rcases threshRows_mem _ _ _ row hrow v hvrow with h | h
  · exact Or.inr h
  · exact Or.inl h

/-- Witness for C2 at a concrete two-frame video. -/
theorem C2_bw_channels_eq_and_binary_witness :
    (convert_video_to_black_and_white (worldOf demoVideo) INPUT_VIDEO
        BLACK_AND_WHITE_VIDEO).written.length = demoVideo.reads.length ∧
      demoVideo.reads[0]? = some (some demoFrameA) :=
  have h := C2_bw_channels_eq_and_binary (worldOf demoVideo) INPUT_VIDEO
    BLACK_AND_WHITE_VIDEO demoVideo rfl (by decide)
  ⟨h.1, by decide⟩

/-- Claim C2 counterexample: on a video whose single frame is uniformly black,
the black-and-white output's only frame is uniformly black, so 255 does not
occur and the set of distinct luminance values is `{0}`, not exactly
`{0, 255}` as claimed. -/
theorem C2_exact_set_counterexample :
    (convert_video_to_black_and_white (worldOf blackFrameVideo) INPUT_VIDEO
        BLACK_AND_WHITE_VIDEO).written = [Mat.color [[(0, 0, 0)]]] ∧
      0 ∈ frameLums (Mat.color [[(0, 0, 0)]]) ∧
      255 ∉ frameLums (Mat.color [[(0, 0, 0)]]) := by
  refine ⟨?_, by decide, by decide⟩
  rw [bw_run_eq (worldOf blackFrameVideo) INPUT_VIDEO BLACK_AND_WHITE_VIDEO
    blackFrameVideo rfl]
  rw [finishConvert_written]
  have hval : (Mat.color [[(0, 0, 0)]]).isValidColor = true := by decide
  have hbody := bwFrameOp_valid hval
  show (frameLoop bwFrameOp [some (Mat.color [[(0, 0, 0)]])]).1 = _
  rw [show (frameLoop bwFrameOp [some (Mat.color [[(0, 0, 0)]])]) =
      ([(Mat.color ((threshRows (lumaRows [[(0, 0, 0)]])
        ⌊getThreshValOtsu (lumaRows [[(0, 0, 0)]])⌋ 255).map
          (List.map fun v => (v, v, v))))], none) by
    unfold frameLoop
    rw [hbody]
    rfl]

  have hL : lumaRows [[((0 : Nat), (0 : Nat), (0 : Nat))]] = [[0]] := by decide
  rw [hL]
  have h0 := otsu_floor_nonneg [[0]]
  have hT : threshRows [[0]] ⌊getThreshValOtsu [[0]]⌋ 255 = [[0]] := by
    unfold threshRows
    simp only [List.map_cons, List.map_nil]
    rw [if_neg (by omega : ¬ (((0 : Nat) : Int) > ⌊getThreshValOtsu [[0]]⌋))]
  rw [hT]
  rfl

/-- Claim C3: the sobel pipeline converts each frame to single-channel
luminance, applies the aperture-5 filter taking a first-order derivative
simultaneously in the horizontal and vertical directions (the separable
correlation `rawSobelXY5` with kernel `sobelKernel5` on both axes, OpenCV
`Sobel(..., ddepth=-1, dx=1, dy=1, ksize=5)`), saturating-clamps every output
value to the source's 8-bit depth rather than keeping raw signed gradients,
and replicates the single output channel into 3 equal channels before
writing. -/
theorem C3_sobel_pipeline (fs : World) (inp outp : String) (d : VideoData)
    (hfs : fs inp = some d) (hv : allValidReads d.reads = true) :
    (convert_video_to_sobel fs inp outp).written.length = d.reads.length ∧
      (∀ (k : Nat) (f : Mat), d.reads[k]? = some (some f) →
        ∃ rows, f = .color rows ∧
          (convert_video_to_sobel fs inp outp).written[k]? =
            some (.color ((sobelFrame (lumaRows rows)).map
              (List.map fun v => (v, v, v)))) ∧
          (∀ row ∈ (sobelFrame (lumaRows rows)).map (List.map fun v => (v, v, v)),
            ∀ p ∈ row, p.1 = p.2.1 ∧ p.2.1 = p.2.2) ∧
          (∀ y x : Nat, y < (lumaRows rows).length → x < gridWidth (lumaRows rows) →
            ((sobelFrame (lumaRows rows)).getD y []).getD x 0 =
              satCast8 (rawSobelXY5 (lumaRows rows) y x))) ∧
      (∀ z : Int, (satCast8 z : Int) = max 0 (min z 255) ∧ satCast8 z ≤ 255) := by
  obtain ⟨_, slen, _, _, sget⟩ := sobel_run_spec fs inp outp d hfs hv
  refine ⟨slen, ?_, fun z => ⟨satCast8_spec z, satCast8_le z⟩⟩
  intro k f hk
  obtain ⟨rows, rfl, hs⟩ := sget k _ hk
  exact ⟨rows, rfl, hs, replicate_channels_eq _,
    fun y x hy hx => sobelFrame_getD _ y x hy hx⟩

/-- Witness for C3 at a concrete two-frame video. -/
theorem C3_sobel_pipeline_witness :
    (convert_video_to_sobel (worldOf demoVideo) INPUT_VIDEO SOBEL_VIDEO).written.length =
        demoVideo.reads.length ∧
      (satCast8 (-7) : Int) = max 0 (min (-7) 255) :=
  have h := C3_sobel_pipeline (worldOf demoVideo) INPUT_VIDEO SOBEL_VIDEO demoVideo
    rfl (by decide)
  ⟨h.1, (h.2.2 (-7)).1⟩

/-- Claim C4 (amended): the entry point runs the grayscale, black-and-white
and sobel conversions unconditionally in that sequence and exits 0 exactly
when none of them raises; an uncaught error in one conversion aborts the
process with a nonzero exit before the remaining conversions run.  However, an
input-open failure is NOT fatal: `cv2.VideoCapture` on a missing file raises
nothing, so the pipelines proceed with zeroed metadata (see the
counterexample), contrary to the claim's final clause. -/
theorem C4_main_sequence (fs : World) :
    (main_run fs).gray = convert_video_to_grayscale fs INPUT_VIDEO GRAYSCALE_VIDEO ∧
      ((convert_video_to_grayscale fs INPUT_VIDEO GRAYSCALE_VIDEO).error = none →
        (main_run fs).bw =
          some (convert_video_to_black_and_white fs INPUT_VIDEO BLACK_AND_WHITE_VIDEO)) ∧
      ((convert_video_to_grayscale fs INPUT_VIDEO GRAYSCALE_VIDEO).error = none →
        (convert_video_to_black_and_white fs INPUT_VIDEO BLACK_AND_WHITE_VIDEO).error = none →
        (main_run fs).sobel = some (convert_video_to_sobel fs INPUT_VIDEO SOBEL_VIDEO)) ∧
      ((convert_video_to_grayscale fs INPUT_VIDEO GRAYSCALE_VIDEO).error ≠ none →
        (main_run fs).bw = none ∧ (main_run fs).sobel = none ∧
          (main_run fs).exitCode = 1) ∧
      ((main_run fs).exitCode = 0 ↔
        (convert_video_to_grayscale fs INPUT_VIDEO GRAYSCALE_VIDEO).error = none ∧
          (convert_video_to_black_and_white fs INPUT_VIDEO
            BLACK_AND_WHITE_VIDEO).error = none ∧
          (convert_video_to_sobel fs INPUT_VIDEO SOBEL_VIDEO).error = none) := by
  obtain ⟨h1, h2, h3, h4⟩ := main_run_seq fs
  exact ⟨main_run_gray fs, h1, h2, h3, h4⟩

/-- Witness for C4: on the file system with no input video nothing raises, so
all three conversions run and the process exits 0. -/
theorem C4_main_sequence_witness :
    (main_run emptyWorld).bw =
        some (convert_video_to_black_and_white emptyWorld INPUT_VIDEO
          BLACK_AND_WHITE_VIDEO) ∧
      (main_run emptyWorld).exitCode = 0 :=
  have h := C4_main_sequence emptyWorld
  ⟨h.2.1 (by decide), h.2.2.2.2.mpr ⟨by decide, by decide, by decide⟩⟩

/-- Claim C4 counterexample: with no openable input video, no error is raised
anywhere — the grayscale conversion completes with metadata all zero (fourcc
0, fps 0, 0x0 frame size), writes no frames, and the process exits 0.  An
input-open failure is therefore not a fatal precondition failure; the program
proceeds with zeroed metadata exactly as the claim denies. -/
theorem C4_open_failure_counterexample :
    (main_run emptyWorld).exitCode = 0 ∧
      (main_run emptyWorld).gray.error = none ∧
      (main_run emptyWorld).gray.writerParams.fourcc = 0 ∧
      (main_run emptyWorld).gray.writerParams.fps = 0 ∧
      (main_run emptyWorld).gray.writerParams.width = 0 ∧
      (main_run emptyWorld).gray.writerParams.height = 0 ∧
      (main_run emptyWorld).gray.written = [] := by
  refine ⟨by decide, by decide, ?_, ?_, ?_, ?_, by decide⟩ <;> decide

/-- Release flags equal the absence of an escaped error, for any loop result. -/
theorem finishConvert_release_iff (wp : WriterParams) (l : List Mat × Option CvErr) :
    (finishConvert wp l).captureReleased = (finishConvert wp l).error.isNone ∧
      (finishConvert wp l).writerReleased = (finishConvert wp l).error.isNone := by
  unfold finishConvert
  cases h : l.2 <;> simp [h]

/-- Claim C5 (amended): in every conversion pipeline both the capture and the
writer are released on every exit path on which no exception escapes — normal
end of stream, a zero-frame input, and a mid-stream read failure all release
both handles regardless of how many frames were processed.  But the release
calls sit after the loop with no try/finally, so on the exit path where a
`cv2.error` is raised mid-loop neither handle is released (see the
counterexample), contrary to the claim's "every exit path" including raised
errors. -/
theorem C5_release_on_exit (fs : World) (inp outp : String) :
    ((convert_video_to_grayscale fs inp outp).captureReleased =
        (convert_video_to_grayscale fs inp outp).error.isNone ∧
      (convert_video_to_grayscale fs inp outp).writerReleased =
        (convert_video_to_grayscale fs inp outp).error.isNone) ∧
      ((convert_video_to_black_and_white fs inp outp).captureReleased =
        (convert_video_to_black_and_white fs inp outp).error.isNone ∧
      (convert_video_to_black_and_white fs inp outp).writerReleased =
        (convert_video_to_black_and_white fs inp outp).error.isNone) ∧
      ((convert_video_to_sobel fs inp outp).captureReleased =
        (convert_video_to_sobel fs inp outp).error.isNone ∧
      (convert_video_to_sobel fs inp outp).writerReleased =
        (convert_video_to_sobel fs inp outp).error.isNone) := by
  refine ⟨?_, ?_, ?_⟩
  · unfold convert_video_to_grayscale
    exact finishConvert_release_iff _ _
  · unfold convert_video_to_black_and_white
    exact finishConvert_release_iff _ _
  · unfold convert_video_to_sobel
    exact finishConvert_release_iff _ _

/-- Claim C5 counterexample: a read that delivers an empty frame makes
`cv2.cvtColor` raise mid-loop, and on that exit path neither the capture nor
the writer is released (and no windows are destroyed): there is an exit path
of the pipeline on which the resources are not released. -/
theorem C5_release_counterexample :
    (convert_video_to_grayscale (worldOf emptyFrameVideo) INPUT_VIDEO
        GRAYSCALE_VIDEO).error = some .emptySrc ∧
      (convert_video_to_grayscale (worldOf emptyFrameVideo) INPUT_VIDEO
        GRAYSCALE_VIDEO).captureReleased = false ∧
      (convert_video_to_grayscale (worldOf emptyFrameVideo) INPUT_VIDEO
        GRAYSCALE_VIDEO).writerReleased = false ∧
      (convert_video_to_grayscale (worldOf emptyFrameVideo) INPUT_VIDEO
        GRAYSCALE_VIDEO).windowsDestroyed = false := by
  refine ⟨by decide, by decide, by decide, by decide⟩

/-- Claim C6 (amended): every output writer is opened with the input's codec
identifier; the black-and-white and sobel writers are opened with the input's
frame rate exactly, while the grayscale writer is opened with the
`int()`-truncated frame rate — equal to the input's frame rate only when that
rate is integral (see the counterexample for a fractional rate); the grayscale
output is opened single-channel (`isColor = 0`) and the black-and-white and
sobel outputs 3-channel. -/
theorem C6_writer_open_params (fs : World) (inp outg outb outs : String) (d : VideoData)
    (hfs : fs inp = some d) :
    (convert_video_to_grayscale fs inp outg).writerParams.fourcc = (d.fourcc : ℚ) ∧
      (convert_video_to_black_and_white fs inp outb).writerParams.fourcc = (d.fourcc : ℚ) ∧
      (convert_video_to_sobel fs inp outs).writerParams.fourcc = (d.fourcc : ℚ) ∧
      (convert_video_to_black_and_white fs inp outb).writerParams.fps = d.fps ∧
      (convert_video_to_sobel fs inp outs).writerParams.fps = d.fps ∧
      (convert_video_to_grayscale fs inp outg).writerParams.fps =
        ((pyInt d.fps : Int) : ℚ) ∧
      (d.fps.den = 1 →
        (convert_video_to_grayscale fs inp outg).writerParams.fps = d.fps) ∧
      (convert_video_to_grayscale fs inp outg).writerParams.isColor = false ∧
      (convert_video_to_black_and_white fs inp outb).writerParams.isColor = true ∧
      (convert_video_to_sobel fs inp outs).writerParams.isColor = true := by
  rw [gray_writerParams, bw_writerParams, sobel_writerParams, hfs]
  refine ⟨?_, ?_, ?_, rfl, rfl, rfl, ?_, rfl, rfl, rfl⟩
  · show ((pyInt ((d.fourcc : Int) : ℚ) : Int) : ℚ) = ((d.fourcc : Int) : ℚ)
    rw [pyInt_intCast]
  · show ((pyInt ((d.fourcc : Int) : ℚ) : Int) : ℚ) = ((d.fourcc : Int) : ℚ)
    rw [pyInt_intCast]
  · show ((pyInt ((d.fourcc : Int) : ℚ) : Int) : ℚ) = ((d.fourcc : Int) : ℚ)
    rw [pyInt_intCast]
  · intro hden
    show ((pyInt d.fps : Int) : ℚ) = d.fps
    exact pyInt_of_den_one d.fps hden

/-- Witness for C6 at a concrete 30 fps video. -/
theorem C6_writer_open_params_witness :
    (convert_video_to_black_and_white (worldOf demoVideo) INPUT_VIDEO
        BLACK_AND_WHITE_VIDEO).writerParams.fps = demoVideo.fps ∧
      (convert_video_to_grayscale (worldOf demoVideo) INPUT_VIDEO
        GRAYSCALE_VIDEO).writerParams.fps = demoVideo.fps :=
  have h := C6_writer_open_params (worldOf demoVideo) INPUT_VIDEO GRAYSCALE_VIDEO
    BLACK_AND_WHITE_VIDEO SOBEL_VIDEO demoVideo rfl
  ⟨h.2.2.2.1, h.2.2.2.2.2.2.1 (by decide)⟩

/-- Claim C6 counterexample: for an input with the non-integral frame rate 5/2
the grayscale writer is opened with frame rate 2, not the input's frame rate —
so "every output writer reuses the input's frame rate" fails. -/
theorem C6_fps_truncated_counterexample :
    fracFpsVideo.fps = fiveHalves ∧
      (convert_video_to_grayscale (worldOf fracFpsVideo) INPUT_VIDEO
        GRAYSCALE_VIDEO).writerParams.fps = 2 ∧
      (2 : ℚ) ≠ fiveHalves := by
  refine ⟨rfl, ?_, by decide⟩
  rw [gray_writerParams]
  show ((pyInt (capGet (some fracFpsVideo) .fps) : Int) : ℚ) = 2
  have hcap : capGet (some fracFpsVideo) .fps = fiveHalves := rfl
  rw [hcap]
  have hfl : pyInt fiveHalves = 2 := by
    unfold pyInt
    rw [if_pos (by decide), Rat.floor_def]
    decide
  rw [hfl]
  norm_num

/-- Claim C7: in every pipeline's frame loop a mid-stream read failure is
treated identically to end of stream: a run whose capture yields the reads
`r1`, then a failed read, then anything more, is observably identical —
writer parameters, written frames, release flags and (absence of) error — to a
run whose capture simply ends after `r1`; no error distinguishes "video ended"
from "a frame failed to decode". -/
theorem C7_read_failure_is_eos (inp outp : String) (fourcc : Int) (fps : ℚ)
    (w h : Nat) (fc : ℚ) (r1 r2 : List (Option Mat)) :
    convert_video_to_grayscale (worldOf ⟨fourcc, fps, w, h, fc, r1 ++ none :: r2⟩) inp outp =
        convert_video_to_grayscale (worldOf ⟨fourcc, fps, w, h, fc, r1⟩) inp outp ∧
      convert_video_to_black_and_white
          (worldOf ⟨fourcc, fps, w, h, fc, r1 ++ none :: r2⟩) inp outp =
        convert_video_to_black_and_white (worldOf ⟨fourcc, fps, w, h, fc, r1⟩) inp outp ∧
      convert_video_to_sobel (worldOf ⟨fourcc, fps, w, h, fc, r1 ++ none :: r2⟩) inp outp =
        convert_video_to_sobel (worldOf ⟨fourcc, fps, w, h, fc, r1⟩) inp outp := by
  refine ⟨?_, ?_, ?_⟩
  · rw [gray_run_eq (worldOf ⟨fourcc, fps, w, h, fc, r1 ++ none :: r2⟩) inp outp _ rfl,
      gray_run_eq (worldOf ⟨fourcc, fps, w, h, fc, r1⟩) inp outp _ rfl]
    dsimp only
    rw [frameLoop_append_none]
  · rw [bw_run_eq (worldOf ⟨fourcc, fps, w, h, fc, r1 ++ none :: r2⟩) inp outp _ rfl,
      bw_run_eq (worldOf ⟨fourcc, fps, w, h, fc, r1⟩) inp outp _ rfl]
    dsimp only
    rw [frameLoop_append_none]
  · rw [sobel_run_eq (worldOf ⟨fourcc, fps, w, h, fc, r1 ++ none :: r2⟩) inp outp _ rfl,
      sobel_run_eq (worldOf ⟨fourcc, fps, w, h, fc, r1⟩) inp outp _ rfl]
    dsimp only
    rw [frameLoop_append_none]

/-- Claim C8: in every pipeline the frame written at position `k` is a
deterministic, stateless function of only the input frame read at position
`k`: two runs — on possibly different videos, worlds and positions — write
identical frames whenever the frames read at those positions are identical;
in particular the black-and-white output's Otsu threshold is recomputed from
that single frame's luminance grid alone (second conjunct), with no temporal
state, and processing the same input frame twice yields bit-identical
output. -/
theorem C8_per_frame_deterministic (fs1 fs2 : World) (i1 i2 o1 o2 : String)
    (d1 d2 : VideoData) (h1 : fs1 i1 = some d1) (h2 : fs2 i2 = some d2)
    (hv1 : allValidReads d1.reads = true) (hv2 : allValidReads d2.reads = true)
    (k1 k2 : Nat) (f : Mat)
    (hk1 : d1.reads[k1]? = some (some f)) (hk2 : d2.reads[k2]? = some (some f)) :
    ((convert_video_to_grayscale fs1 i1 o1).written[k1]? =
        (convert_video_to_grayscale fs2 i2 o2).written[k2]? ∧
      (convert_video_to_black_and_white fs1 i1 o1).written[k1]? =
        (convert_video_to_black_and_white fs2 i2 o2).written[k2]? ∧
      (convert_video_to_sobel fs1 i1 o1).written[k1]? =
        (convert_video_to_sobel fs2 i2 o2).written[k2]?) ∧
      ∃ rows, f = .color rows ∧
        (convert_video_to_black_and_white fs1 i1 o1).written[k1]? =
          some (.color ((threshRows (lumaRows rows)
            ⌊getThreshValOtsu (lumaRows rows)⌋ 255).map
              (List.map fun v => (v, v, v)))) := by
  obtain ⟨_, _, _, _, gget1⟩ := gray_run_spec fs1 i1 o1 d1 h1 hv1
  obtain ⟨_, _, _, _, gget2⟩ := gray_run_spec fs2 i2 o2 d2 h2 hv2
  obtain ⟨_, _, _, _, bget1⟩ := bw_run_spec fs1 i1 o1 d1 h1 hv1
  obtain ⟨_, _, _, _, bget2⟩ := bw_run_spec fs2 i2 o2 d2 h2 hv2
  obtain ⟨_, _, _, _, sget1⟩ := sobel_run_spec fs1 i1 o1 d1 h1 hv1
  obtain ⟨_, _, _, _, sget2⟩ := sobel_run_spec fs2 i2 o2 d2 h2 hv2
  obtain ⟨rows, rfl, hg1⟩ := gget1 k1 f hk1
  obtain ⟨rows2, heq2, hg2⟩ := gget2 k2 _ hk2
  cases heq2
  obtain ⟨rows3, heq3, hb1⟩ := bget1 k1 _ hk1
  cases heq3
  obtain ⟨rows4, heq4, hb2⟩ := bget2 k2 _ hk2
  cases heq4
  obtain ⟨rows5, heq5, hs1⟩ := sget1 k1 _ hk1
  cases heq5
  obtain ⟨rows6, heq6, hs2⟩ := sget2 k2 _ hk2
  cases heq6
  refine ⟨⟨?_, ?_, ?_⟩, rows, rfl, hb1⟩
  · rw [hg1, hg2]
  · rw [hb1, hb2]
  · rw [hs1, hs2]

/-- Witness for C8: the same frame at position 0 of one video and position 1
of another produces the same written frame in both runs. -/
theorem C8_per_frame_deterministic_witness :
    (convert_video_to_grayscale (worldOf demoVideo) INPUT_VIDEO
        GRAYSCALE_VIDEO).written[0]? =
      (convert_video_to_grayscale (worldOf demoVideoSwapped) INPUT_VIDEO
        GRAYSCALE_VIDEO).written[1]? :=
  (C8_per_frame_deterministic (worldOf demoVideo) (worldOf demoVideoSwapped)
    INPUT_VIDEO INPUT_VIDEO GRAYSCALE_VIDEO GRAYSCALE_VIDEO demoVideo demoVideoSwapped
    rfl rfl (by decide) (by decide) 0 1 demoFrameA (by decide) (by decide)).1.1

/-- Claim C9 (amended): in the grayscale output, the frame written at each
position is the per-pixel luminance conversion of the corresponding input
frame, with every pixel's value within rounding tolerance 1 of the standard
Rec.601 weighted combination `0.299 R + 0.587 G + 0.114 B` of that pixel's
channels; the sink is opened single-channel with the source's dimensions —
but with the `int()`-truncated frame rate, which equals the source's frame
rate only when it is integral (see the counterexample). -/
theorem C9_grayscale_luminance (fs : World) (inp outp : String) (d : VideoData)
    (hfs : fs inp = some d) (hv : allValidReads d.reads = true) :
    (convert_video_to_grayscale fs inp outp).writerParams.isColor = false ∧
      (convert_video_to_grayscale fs inp outp).writerParams.width = (d.width : ℚ) ∧
      (convert_video_to_grayscale fs inp outp).writerParams.height = (d.height : ℚ) ∧
      (convert_video_to_grayscale fs inp outp).writerParams.fps =
        ((pyInt d.fps : Int) : ℚ) ∧
      (d.fps.den = 1 →
        (convert_video_to_grayscale fs inp outp).writerParams.fps = d.fps) ∧
      (convert_video_to_grayscale fs inp outp).written.length = d.reads.length ∧
      (∀ (k : Nat) (f : Mat), d.reads[k]? = some (some f) →
        ∃ rows, f = .color rows ∧
          (convert_video_to_grayscale fs inp outp).written[k]? =
            some (.gray (rows.map (List.map luma)))) ∧
      ∀ b g r : Nat, b ≤ 255 → g ≤ 255 → r ≤ 255 →
        |((luma (b, g, r) : ℚ)) -
            (299 / 1000 * (r : ℚ) + 587 / 1000 * (g : ℚ) + 114 / 1000 * (b : ℚ))| ≤ 1 := by
  obtain ⟨_, glen, _, _, gget⟩ := gray_run_spec fs inp outp d hfs hv
  rw [gray_writerParams, hfs]
  refine ⟨rfl, ?_, ?_, rfl, ?_, glen, ?_, luma_tolerance⟩
  · show ((pyInt ((d.width : Nat) : ℚ) : Int) : ℚ) = (d.width : ℚ)
    rw [pyInt_natCast]
    push_cast
    rfl
  · show ((pyInt ((d.height : Nat) : ℚ) : Int) : ℚ) = (d.height : ℚ)
    rw [pyInt_natCast]
    push_cast
    rfl
  · intro hden
    show ((pyInt d.fps : Int) : ℚ) = d.fps
    exact pyInt_of_den_one d.fps hden
  · intro k f hk
    obtain ⟨rows, rfl, hg⟩ := gget k _ hk
    exact ⟨rows, rfl, hg⟩

/-- Witness for C9 at a concrete two-frame video. -/
theorem C9_grayscale_luminance_witness :
    (convert_video_to_grayscale (worldOf demoVideo) INPUT_VIDEO
        GRAYSCALE_VIDEO).writerParams.isColor = false ∧
      |((luma (10, 20, 30) : ℚ)) -
          (299 / 1000 * (30 : ℚ) + 587 / 1000 * (20 : ℚ) + 114 / 1000 * (10 : ℚ))| ≤ 1 :=
  have h := C9_grayscale_luminance (worldOf demoVideo) INPUT_VIDEO GRAYSCALE_VIDEO
    demoVideo rfl (by decide)
  ⟨h.1, h.2.2.2.2.2.2.2 10 20 30 (by decide) (by decide) (by decide)⟩

/-- Claim C9 counterexample: for an input with the non-integral frame rate 7/2
the grayscale sink is opened with frame rate 3 rather than the source's frame
rate, refuting the "sink opened with the source's frame rate" clause. -/
theorem C9_fps_counterexample :
    fracFpsVideoB.fps = sevenHalves ∧
      (convert_video_to_grayscale (worldOf fracFpsVideoB) INPUT_VIDEO
        GRAYSCALE_VIDEO).writerParams.fps = 3 ∧
      (3 : ℚ) ≠ sevenHalves := by
  refine ⟨rfl, ?_, by decide⟩
  rw [gray_writerParams]
  show ((pyInt (capGet (some fracFpsVideoB) .fps) : Int) : ℚ) = 3
  have hcap : capGet (some fracFpsVideoB) .fps = sevenHalves := rfl
  rw [hcap]
  have hfl : pyInt sevenHalves = 3 := by
    unfold pyInt
    rw [if_pos (by decide), Rat.floor_def]
    decide
  rw [hfl]
  norm_num

/-- Claim C10: `get_video_parameters` is total on any capture object — it is
defined for opened and unopened captures alike and returns a dictionary with
exactly the four keys `"fourcc"`, `"fps"`, `"height"`, `"width"`, each the
integer truncation (toward zero: floor for nonnegative values, ceiling for
negative ones) of the corresponding capture property — so a non-integer
source frame rate is truncated before being passed to the grayscale writer,
while the black-and-white and sobel pipelines probe their metadata separately
and pass the untruncated frame rate. -/
theorem C10_get_video_parameters (c : Option VideoData) (fs : World)
    (inp outg outb outs : String) :
    (get_video_parameters c).map Prod.fst = ["fourcc", "fps", "height", "width"] ∧
      dictGet (get_video_parameters c) "fourcc" = ((pyInt (capGet c .fourcc) : Int) : ℚ) ∧
      dictGet (get_video_parameters c) "fps" = ((pyInt (capGet c .fps) : Int) : ℚ) ∧
      dictGet (get_video_parameters c) "height" =
        ((pyInt (capGet c .frameHeight) : Int) : ℚ) ∧
      dictGet (get_video_parameters c) "width" =
        ((pyInt (capGet c .frameWidth) : Int) : ℚ) ∧
      (∀ q : ℚ, 0 ≤ q → pyInt q = ⌊q⌋) ∧
      (∀ q : ℚ, q < 0 → pyInt q = ⌈q⌉) ∧
      (convert_video_to_grayscale fs inp outg).writerParams.fps =
        ((pyInt (capGet (fs inp) .fps) : Int) : ℚ) ∧
      (convert_video_to_black_and_white fs inp outb).writerParams.fps =
        capGet (fs inp) .fps ∧
      (convert_video_to_sobel fs inp outs).writerParams.fps = capGet (fs inp) .fps := by
  refine ⟨rfl, rfl, rfl, rfl, rfl, ?_, ?_, ?_, ?_, ?_⟩
  · intro q hq
    unfold pyInt
    rw [if_pos hq]
  · intro q hq
    unfold pyInt
    rw [if_neg (by exact not_le.mpr hq)]
  · rw [gray_writerParams]
  · rw [bw_writerParams]
  · rw [sobel_writerParams]

/-- Witness for C10: the truncation really is toward zero on a fractional
value, and the probe's keys are as stated for the unopened capture. -/
theorem C10_get_video_parameters_witness :
    pyInt fiveHalves = ⌊fiveHalves⌋ ∧
      (get_video_parameters none).map Prod.fst = ["fourcc", "fps", "height", "width"] :=
  have h := C10_get_video_parameters none emptyWorld INPUT_VIDEO GRAYSCALE_VIDEO
    BLACK_AND_WHITE_VIDEO SOBEL_VIDEO
  ⟨h.2.2.2.2.2.1 fiveHalves (by decide), h.1⟩
